import Mathlib

/-!
Verification development for the cinema-ticket repository's subscription
benefit engine (src/core/subscription.py, src/services/subscription_service.py).

Modelling conventions:
* Python `Decimal` (the Money type) is modelled as `ℚ`: the operations the
  engine performs (addition, subtraction, multiplication by the literals
  0.2 and 0.5) are exact decimal arithmetic, which embeds faithfully in `ℚ`.
* Python `str` dates are modelled as `String`; `datetime.strptime` with the
  three accepted formats is modelled by `parseDate`, and
  `strftime("%Y-%m-%d")` by `canonicalDate` (zero-padded fields).
* `datetime.today().date()` is modelled by an explicit `today : Date`
  parameter threaded through the service functions.
* Python exceptions are modelled by `Except PyError`; each service function
  also returns the resulting storage state and wallet balance explicitly, so
  an error result leaves them at their pre-call values exactly when the
  Python code raises before mutating them.
-/

deriving instance DecidableEq for Except

namespace CinemaTicket

/-- A calendar date, as carried by Python `datetime.date`. -/
structure Date where
  year : Nat
  month : Nat
  day : Nat
deriving DecidableEq, Repr

/-- Gregorian leap-year rule used by `datetime` for day-of-month validation. -/
def isLeap (y : Nat) : Bool :=
  if (y % 4 = 0 ∧ y % 100 ≠ 0) ∨ y % 400 = 0 then true else false

/-- Number of days in a month, as validated by the `datetime` constructor. -/
def daysInMonth (y m : Nat) : Nat :=
  if m = 2 then (if isLeap y then 29 else 28)
  else if m = 4 ∨ m = 6 ∨ m = 9 ∨ m = 11 then 30
  else 31

/-- The dates representable by Python `datetime` (year 1..9999, valid month/day). -/
def ValidDate (d : Date) : Prop :=
  1 ≤ d.year ∧ d.year ≤ 9999 ∧ 1 ≤ d.month ∧ d.month ≤ 12 ∧
    1 ≤ d.day ∧ d.day ≤ daysInMonth d.year d.month

instance (d : Date) : Decidable (ValidDate d) := by
  unfold ValidDate
  infer_instance

/-- Range-check a parsed (year, month, day), as `strptime`'s field regexes plus
the `datetime` constructor do. -/
def mkValidDate (y m d : Nat) : Option Date :=
  if 1 ≤ y ∧ y ≤ 9999 ∧ 1 ≤ m ∧ m ≤ 12 ∧ 1 ≤ d ∧ d ≤ daysInMonth y m then
    some ⟨y, m, d⟩
  else none

/-- Numeric value of a decimal digit character. -/
def digitVal (c : Char) : Nat := c.toNat - 48

/-- Consume one or two leading digits, greedily, as `strptime`'s `%d` and `%m`
directives do (their regexes prefer the two-digit alternatives). -/
def take2 : List Char → Option (Nat × List Char)
  | [] => none
  | c1 :: rest =>
    if c1.isDigit then
      match rest with
      | c2 :: rest2 =>
        if c2.isDigit then some (10 * digitVal c1 + digitVal c2, rest2)
        else some (digitVal c1, c2 :: rest2)
      | [] => some (digitVal c1, [])
    else none

/-- Consume exactly four leading digits, as `strptime`'s `%Y` directive does. -/
def take4 : List Char → Option (Nat × List Char)
  | c1 :: c2 :: c3 :: c4 :: rest =>
    if c1.isDigit && c2.isDigit && c3.isDigit && c4.isDigit then
      some (((digitVal c1 * 10 + digitVal c2) * 10 + digitVal c3) * 10 + digitVal c4, rest)
    else none
  | _ => none

/-- Consume one expected literal character of the format string. -/
def expectChar (c : Char) : List Char → Option (List Char)
  | [] => none
  | x :: rest => if x = c then some rest else none

/-- `datetime.strptime(value, "%Y-%m-%d")`, requiring the whole string to be
consumed, returning a validated date. -/
def parseFmtYMD (cs : List Char) : Option Date :=
  (take4 cs).bind fun p1 =>
    (expectChar '-' p1.2).bind fun r2 =>
      (take2 r2).bind fun p2 =>
        (expectChar '-' p2.2).bind fun r4 =>
          (take2 r4).bind fun p3 =>
            if p3.2 = [] then mkValidDate p1.1 p2.1 p3.1 else none

/-- `datetime.strptime(value, "%d<sep>%m<sep>%Y")` for separator `/` or `.`. -/
def parseFmtDMY (sep : Char) (cs : List Char) : Option Date :=
  (take2 cs).bind fun p1 =>
    (expectChar sep p1.2).bind fun r2 =>
      (take2 r2).bind fun p2 =>
        (expectChar sep p2.2).bind fun r4 =>
          (take4 r4).bind fun p3 =>
            if p3.2 = [] then mkValidDate p3.1 p2.1 p1.1 else none

/-- The date-setter loop of `Subscription`: try `"%Y-%m-%d"`, `"%d/%m/%Y"`,
`"%d.%m.%Y"` in order and keep the first parse that succeeds. -/
def parseDate (s : String) : Option Date :=
  match parseFmtYMD s.data with
  | some d => some d
  | none =>
    match parseFmtDMY '/' s.data with
    | some d => some d
    | none => parseFmtDMY '.' s.data

/-- The character of a decimal digit. -/
def natDigitChar : Nat → Char
  | 0 => '0'
  | 1 => '1'
  | 2 => '2'
  | 3 => '3'
  | 4 => '4'
  | 5 => '5'
  | 6 => '6'
  | 7 => '7'
  | 8 => '8'
  | 9 => '9'
  | _ => '*'

/-- Two-digit zero-padded rendering (`%m`, `%d` in `strftime`). -/
def pad2 (n : Nat) : List Char := [natDigitChar (n / 10 % 10), natDigitChar (n % 10)]

/-- The four decimal digits of a year in 1000..9999. -/
def pad4 (n : Nat) : List Char :=
  [natDigitChar (n / 1000 % 10), natDigitChar (n / 100 % 10),
    natDigitChar (n / 10 % 10), natDigitChar (n % 10)]

/-- `%Y` in platform `strftime`: the year as an UNPADDED decimal number, so
years below 1000 render with fewer than four digits (`999` → `"999"`).
`datetime` years lie in 1..9999, so the four-digit arm also covers the
fallback. -/
def yearChars (y : Nat) : List Char :=
  if y < 10 then [natDigitChar (y % 10)]
  else if y < 100 then [natDigitChar (y / 10 % 10), natDigitChar (y % 10)]
  else if y < 1000 then
    [natDigitChar (y / 100 % 10), natDigitChar (y / 10 % 10), natDigitChar (y % 10)]
  else pad4 y

/-- `parsed_date.strftime("%Y-%m-%d")`: the normalized date string. Month and
day are zero-padded to two digits; the year is unpadded, so a year below
1000 yields a string that the `"%Y-%m-%d"` re-parse (which requires exactly
four year digits) rejects. -/
def canonicalDate (d : Date) : String :=
  String.mk (yearChars d.year ++ '-' :: (pad2 d.month ++ '-' :: pad2 d.day))

/-- Python `datetime` comparison `a <= b` (lexicographic on year, month, day). -/
def dateLeB (a b : Date) : Bool :=
  if a.year < b.year then true
  else if b.year < a.year then false
  else if a.month < b.month then true
  else if b.month < a.month then false
  else decide (a.day ≤ b.day)

/-- Python `datetime` comparison `a < b` (lexicographic on year, month, day). -/
def dateLtB (a b : Date) : Bool :=
  if a.year < b.year then true
  else if b.year < a.year then false
  else if a.month < b.month then true
  else if b.month < a.month then false
  else decide (a.day < b.day)

/-- `core.enums.SubscriptionType`. -/
inductive SubscriptionType where
  | bronze
  | silver
  | gold
deriving DecidableEq, Repr

/-- The `.value` string of each enum member. -/
def SubscriptionType.value : SubscriptionType → String
  | .bronze => "bronze"
  | .silver => "silver"
  | .gold => "gold"

/-- `SubscriptionType(s)`: value-based enum lookup, `ValueError` (none) when the
string is not a recognized value. -/
def SubscriptionType.fromValue (s : String) : Option SubscriptionType :=
  if s = "bronze" then some .bronze
  else if s = "silver" then some .silver
  else if s = "gold" then some .gold
  else none

/-- The `subscription_type` argument as Python receives it: either an actual
enum member or some other runtime value (failing the `isinstance` check). -/
inductive TierInput where
  | enum (t : SubscriptionType)
  | notEnum (txt : String)
deriving DecidableEq, Repr

/-- The exceptions the modelled code can raise. `typeError` is the uncaught
`TypeError` from `strptime(None, fmt)`; `attributeError` is the uncaught
`AttributeError` from `datetime.datetime.now(datetime.timezone.utc)` when
`datetime` is the class imported by `from datetime import datetime`;
`valueError` is an uncaught `ValueError` (unknown enum value at
deserialization). -/
inductive PyError where
  | invalidSubscriptionType
  | invalidDate (value : String) (msg : String)
  | typeError
  | valueError
  | invalidAmount
  | attributeError
deriving DecidableEq, Repr

/-- `core.subscription.Subscription`: the in-memory entity state after
construction. Dates are stored in their normalized `YYYY-MM-DD` form. -/
structure Subscription where
  user_id : String
  subscription_type : SubscriptionType
  start_date : String
  end_date : String
  remaining_credits : Int
  apply_gold_drink_benefits : Int
deriving DecidableEq, Repr

/-- `Subscription.__init__`: tier `isinstance` check, start-date setter,
end-date setter (an absent end_date reaches `strptime(None, fmt)`, whose
`TypeError` is not caught by the `except ValueError` clause), the
end-before-start re-parse check on the normalized strings (format
`"%Y-%m-%d"` only), then credit and drink-flag initialization. -/
def Subscription.init (uid : String) (tier : TierInput) (sd : String)
    (ed : Option String) : Except PyError Subscription :=
  match tier with
  | .notEnum _ => .error .invalidSubscriptionType
  | .enum t =>
    match parseDate sd with
    | none => .error (.invalidDate sd "Date format is not recognized.")
    | some ds =>
      let startNorm := canonicalDate ds
      match ed with
      | none => .error .typeError
      | some edS =>
        match parseDate edS with
        | none => .error (.invalidDate edS "Date format is not recognized.")
        | some de =>
          let endNorm := canonicalDate de
          match parseFmtYMD endNorm.data, parseFmtYMD startNorm.data with
          | some e0, some s0 =>
            if dateLtB e0 s0 then
              .error (.invalidDate edS "end_date cannot be before start_date")
            else
              .ok { user_id := uid
                    subscription_type := t
                    start_date := startNorm
                    end_date := endNorm
                    remaining_credits := if t = SubscriptionType.silver then 3 else 0
                    apply_gold_drink_benefits := if t = SubscriptionType.gold then 1 else 0 }
          | _, _ => .error .valueError

/-- `Subscription.is_active`, with the check date passed explicitly. GOLD
checks the inclusive date window (empty end_date would short-circuit to
false); SILVER checks only `remaining_credits > 0`; BRONZE is always
inactive. The parse fallback branch is unreachable for constructed
subscriptions, whose stored dates are normalized. -/
def Subscription.is_active (s : Subscription) (today : Date) : Bool :=
  if s.subscription_type = SubscriptionType.gold then
    if s.end_date = "" then false
    else
      match parseFmtYMD s.start_date.data, parseFmtYMD s.end_date.data with
      | some st, some en => dateLeB st today && dateLeB today en
      | _, _ => false
  else if s.subscription_type = SubscriptionType.silver then
    decide (0 < s.remaining_credits)
  else false

/-- The serialized subscription record: the keys written by
`Subscription.to_dict`. `remaining_credits` is optional because `from_dict`
reads it with `data.get("remaining_credits", default)`. The drink flag is
not part of the record. -/
structure SubRecord where
  user_id : String
  subscription_type : String
  start_date : String
  end_date : String
  remaining_credits : Option Int
deriving DecidableEq, Repr

/-- `Subscription.to_dict`. -/
def Subscription.to_dict (s : Subscription) : SubRecord :=
  { user_id := s.user_id
    subscription_type := s.subscription_type.value
    start_date := s.start_date
    end_date := s.end_date
    remaining_credits := some s.remaining_credits }

/-- `Subscription.from_dict`: enum value lookup (uncaught `ValueError` on an
unrecognized tier string), reconstruction through `__init__`, then the
`remaining_credits` override with the constructed value as default. -/
def Subscription.from_dict (r : SubRecord) : Except PyError Subscription :=
  match SubscriptionType.fromValue r.subscription_type with
  | none => .error .valueError
  | some t =>
    match Subscription.init r.user_id (.enum t) r.start_date (some r.end_date) with
    | .error e => .error e
    | .ok s => .ok { s with remaining_credits := r.remaining_credits.getD s.remaining_credits }

/-- Modelled from the spec: the subscription store. `load_subscriptions` and
`save_subscriptions` are imported by the service but absent from
`storage/json_storage.py`; per spec section 6 the persisted structure is
`by_user_id : user_id -> subscription fields`, modelled as an association
list, with a missing file degrading to the empty record. -/
abbrev Store := List (String × SubRecord)

/-- Modelled from the spec: lookup in the `by_user_id` mapping. -/
def findRecord : Store → String → Option SubRecord
  | [], _ => none
  | (k, v) :: rest, uid => if k = uid then some v else findRecord rest uid

/-- Modelled from the spec: `data["by_user_id"][user_id] = record` followed by
a save of the whole structure. -/
def putRecord : Store → String → SubRecord → Store
  | [], uid, r => [(uid, r)]
  | (k, v) :: rest, uid, r =>
    if k = uid then (k, r) :: rest else (k, v) :: putRecord rest uid r

/-- `_load_user_subscriptions`: absent key gives `None`; a present record is
deserialized, re-raising any deserialization error. -/
def load_user_subscriptions (store : Store) (uid : String) :
    Except PyError (Option Subscription) :=
  match findRecord store uid with
  | none => .ok none
  | some r =>
    match Subscription.from_dict r with
    | .error e => .error e
    | .ok s => .ok (some s)

/-- `_save_user_subscription`. -/
def save_user_subscription (store : Store) (s : Subscription) : Store :=
  putRecord store s.user_id s.to_dict

/-- `get_user_subscription`: conflates "no record" and "record inactive" into
`none`. -/
def get_user_subscription (today : Date) (store : Store) (uid : String) :
    Except PyError (Option Subscription) :=
  match load_user_subscriptions store uid with
  | .error e => .error e
  | .ok none => .ok none
  | .ok (some s) => if s.is_active today then .ok (some s) else .ok none

/-- `get_user_subscription_type`: the active subscription's tier, defaulting
to bronze. -/
def get_user_subscription_type (today : Date) (store : Store) (uid : String) :
    Except PyError SubscriptionType :=
  match get_user_subscription today store uid with
  | .error e => .error e
  | .ok none => .ok SubscriptionType.bronze
  | .ok (some s) => .ok s.subscription_type

/-- `create_subscription`: the `isinstance` tier check raises
`InvalidSubscriptionTypeError` for a non-enum argument; a valid tier then
reaches `start_date = datetime.datetime.now(datetime.timezone.utc)`, which
raises `AttributeError` because the module imports the `datetime` class
(`from datetime import datetime`), and that class has no `datetime`
attribute. No path constructs or persists a subscription. -/
def create_subscription (store : Store) (_uid : String) (tier : TierInput) :
    (Except PyError Subscription) × Store :=
  match tier with
  | .notEnum _ => (.error .invalidSubscriptionType, store)
  | .enum _ => (.error .attributeError, store)

/-- `apply_subscription_benefits` over an explicit wallet balance and store.
The silver branch computes cashback, deposits it (`User.deposit` raises
`InvalidAmountError` for a non-positive amount, before the credit decrement
and the save), then decrements `remaining_credits` and persists; it returns
the original amount. The gold branch returns the discounted amount with no
state change. -/
def apply_subscription_benefits (today : Date) (store : Store) (balance : ℚ)
    (uid : String) (amount : ℚ) : (Except PyError ℚ) × ℚ × Store :=
  match get_user_subscription today store uid with
  | .error e => (.error e, balance, store)
  | .ok none => (.ok amount, balance, store)
  | .ok (some sub) =>
    if sub.subscription_type = SubscriptionType.silver then
      if sub.remaining_credits ≤ 0 then (.ok amount, balance, store)
      else
        let cashback := amount * (0.2 : ℚ)
        if cashback ≤ 0 then (.error .invalidAmount, balance, store)
        else
          let sub2 := { sub with remaining_credits := sub.remaining_credits - 1 }
          (.ok amount, balance + cashback, save_user_subscription store sub2)
    else if sub.subscription_type = SubscriptionType.gold then
      let discount := amount * (0.5 : ℚ)
      (.ok (amount - discount), balance, store)
    else (.ok amount, balance, store)

/-- `remaining_gold_drink_benefits`: false when the active subscription is
absent or not gold, false when the in-memory drink flag is exhausted,
otherwise decrements the flag, persists, and returns true. -/
def remaining_gold_drink_benefits (today : Date) (store : Store) (uid : String) :
    (Except PyError Bool) × Store :=
  match get_user_subscription today store uid with
  | .error e => (.error e, store)
  | .ok none => (.ok false, store)
  | .ok (some sub) =>
    if sub.subscription_type ≠ SubscriptionType.gold then (.ok false, store)
    else if sub.apply_gold_drink_benefits ≤ 0 then (.ok false, store)
    else
      let sub2 := { sub with apply_gold_drink_benefits := sub.apply_gold_drink_benefits - 1 }
      (.ok true, save_user_subscription store sub2)

/-- The `remaining_credits` a record deserializes to: the stored value, or the
constructor's default (3 for silver, 0 otherwise) when the key is absent. -/
def recCredits (r : SubRecord) : Int :=
  r.remaining_credits.getD (if r.subscription_type = "silver" then 3 else 0)

/-- Every stored record deserializes to a non-negative credit counter. -/
def StoreOK (store : Store) : Prop :=
  ∀ uid r, findRecord store uid = some r → 0 ≤ recCredits r

/-- Every stored record is keyed by its own `user_id`, as the service's
save path guarantees. -/
def StoreCoherent (store : Store) : Prop :=
  ∀ uid r, findRecord store uid = some r → r.user_id = uid

/-- The credit counter a caller would observe for a user, if a record exists. -/
def creditsAt (store : Store) (uid : String) : Option Int :=
  (findRecord store uid).map recCredits

/-- One invocation of a mutating engine entry point. -/
inductive EngineOp where
  | createOp (uid : String) (tier : TierInput)
  | applyOp (uid : String) (balance : ℚ) (amount : ℚ)
  | drinkOp (uid : String)

/-- The storage state after one engine call (an exception propagates with the
store left as it was). -/
def runOp (today : Date) (store : Store) : EngineOp → Store
  | .createOp uid tier => (create_subscription store uid tier).2
  | .applyOp uid bal amt => (apply_subscription_benefits today store bal uid amt).2.2
  | .drinkOp uid => (remaining_gold_drink_benefits today store uid).2

/-- The storage state after a sequence of engine calls. -/
def runOps (today : Date) (store : Store) (ops : List EngineOp) : Store :=
  List.foldl (runOp today) store ops

/-- The construction invariant every deserializable subscription satisfies:
its stored dates are normalized renderings of parseable dates, in order,
and the stored strings survive the `"%Y-%m-%d"` re-parse that construction
itself performs (which forces four-digit years). -/
def SubWF (s : Subscription) : Prop :=
  ∃ ds de, parseDate s.start_date = some ds ∧ parseDate s.end_date = some de ∧
    canonicalDate ds = s.start_date ∧ canonicalDate de = s.end_date ∧
    parseFmtYMD s.start_date.data = some ds ∧
    parseFmtYMD s.end_date.data = some de ∧
    dateLtB de ds = false

lemma daysInMonth_le_31 (y m : Nat) : daysInMonth y m ≤ 31 := by
  unfold daysInMonth
  split
  · split <;> omega
  · split <;> omega

lemma natDigitChar_isDigit {k : Nat} (h : k < 10) : (natDigitChar k).isDigit = true := by
  interval_cases k <;> decide

lemma digitVal_natDigitChar {k : Nat} (h : k < 10) : digitVal (natDigitChar k) = k := by
  interval_cases k <;> decide

lemma take2_pad2 (n : Nat) (h : n < 100) (rest : List Char) :
    take2 (pad2 n ++ rest) = some (n, rest) := by
  have h1 : n / 10 % 10 < 10 := Nat.mod_lt _ (by norm_num)
  have h2 : n % 10 < 10 := Nat.mod_lt _ (by norm_num)
  simp only [pad2, List.cons_append, List.nil_append, take2,
    natDigitChar_isDigit h1, natDigitChar_isDigit h2, if_true,
    digitVal_natDigitChar h1, digitVal_natDigitChar h2, Option.some.injEq,
    Prod.mk.injEq]
  exact ⟨by omega, trivial⟩

lemma take4_pad4 (n : Nat) (h : n < 10000) (rest : List Char) :
    take4 (pad4 n ++ rest) = some (n, rest) := by
  have h1 : n / 1000 % 10 < 10 := Nat.mod_lt _ (by norm_num)
  have h2 : n / 100 % 10 < 10 := Nat.mod_lt _ (by norm_num)
  have h3 : n / 10 % 10 < 10 := Nat.mod_lt _ (by norm_num)
  have h4 : n % 10 < 10 := Nat.mod_lt _ (by norm_num)
  simp only [pad4, List.cons_append, List.nil_append, take4,
    natDigitChar_isDigit h1, natDigitChar_isDigit h2, natDigitChar_isDigit h3,
    natDigitChar_isDigit h4, Bool.and_self, if_true,
    digitVal_natDigitChar h1, digitVal_natDigitChar h2, digitVal_natDigitChar h3,
    digitVal_natDigitChar h4, Option.some.injEq, Prod.mk.injEq]
  exact ⟨by omega, trivial⟩

lemma expectChar_cons (c : Char) (rest : List Char) :
    expectChar c (c :: rest) = some rest := by
  simp [expectChar]

lemma take2_pad2_nil (n : Nat) (h : n < 100) : take2 (pad2 n) = some (n, []) := by
  have h0 := take2_pad2 n h []
  rwa [List.append_nil] at h0

lemma parseFmtYMD_canonical {d : Date} (h : ValidDate d) :
    parseFmtYMD (canonicalDate d).data
      = (if 1000 ≤ d.year then some d else none) := by
  obtain ⟨y, m, dy⟩ := d
  obtain ⟨h1, h2, h3, h4, h5, h6⟩ := h
  dsimp only at h1 h2 h3 h4 h5 h6 ⊢
  have h31 : daysInMonth y m ≤ 31 := daysInMonth_le_31 y m
  have hdm : ('-' : Char).isDigit = false := by decide
  by_cases hy : 1000 ≤ y
  · rw [if_pos hy]
    have hyc : yearChars y = pad4 y := by
      unfold yearChars
      rw [if_neg (by omega), if_neg (by omega), if_neg (by omega)]
    show parseFmtYMD (yearChars y ++ '-' :: (pad2 m ++ '-' :: pad2 dy))
      = some ⟨y, m, dy⟩
    rw [hyc]
    simp only [parseFmtYMD, take4_pad4 y (by omega), Option.some_bind,
      expectChar_cons, take2_pad2 m (by omega), take2_pad2_nil dy (by omega),
      if_true]
    unfold mkValidDate
    rw [if_pos]
    exact ⟨h1, h2, h3, h4, h5, h6⟩
  · rw [if_neg hy]
    show parseFmtYMD (yearChars y ++ '-' :: (pad2 m ++ '-' :: pad2 dy)) = none
    unfold yearChars
    split_ifs with hy1 hy2 hy3
    · simp [parseFmtYMD, pad2, take4, hdm]
    · simp [parseFmtYMD, pad2, take4, hdm]
    · simp [parseFmtYMD, pad2, take4, hdm]
    · omega

lemma parseDate_canonical {d : Date} (h : ValidDate d) (hy : 1000 ≤ d.year) :
    parseDate (canonicalDate d) = some d := by
  unfold parseDate
  rw [parseFmtYMD_canonical h, if_pos hy]

lemma mkValidDate_some {y m dd : Nat} {d : Date} (h : mkValidDate y m dd = some d) :
    ValidDate d := by
  unfold mkValidDate at h
  split at h
  · cases h
    assumption
  · cases h

lemma parseFmtYMD_valid {cs : List Char} {d : Date} (h : parseFmtYMD cs = some d) :
    ValidDate d := by
  simp only [parseFmtYMD, Option.bind_eq_some] at h
  obtain ⟨p1, _, p2, _, p3, _, p4, _, p5, _, h⟩ := h
  split at h
  · exact mkValidDate_some h
  · cases h

lemma parseFmtDMY_valid {sep : Char} {cs : List Char} {d : Date}
    (h : parseFmtDMY sep cs = some d) : ValidDate d := by
  simp only [parseFmtDMY, Option.bind_eq_some] at h
  obtain ⟨p1, _, p2, _, p3, _, p4, _, p5, _, h⟩ := h
  split at h
  · exact mkValidDate_some h
  · cases h

lemma parseDate_valid {s : String} {d : Date} (h : parseDate s = some d) :
    ValidDate d := by
  unfold parseDate at h
  rcases e1 : parseFmtYMD s.data with _ | d1 <;> simp only [e1] at h
  · rcases e2 : parseFmtDMY '/' s.data with _ | d2 <;> simp only [e2] at h
    · exact parseFmtDMY_valid h
    · cases h
      exact parseFmtDMY_valid e2
  · cases h
    exact parseFmtYMD_valid e1

lemma fromValue_value (t : SubscriptionType) :
    SubscriptionType.fromValue t.value = some t := by
  cases t <;> rfl

lemma fromValue_eq_some {str : String} {t : SubscriptionType}
    (h : SubscriptionType.fromValue str = some t) : str = t.value := by
  unfold SubscriptionType.fromValue at h
  split at h
  · cases h; assumption
  · split at h
    · cases h; assumption
    · split at h
      · cases h; assumption
      · cases h

lemma value_eq_silver_iff {t : SubscriptionType} :
    (t.value = "silver") ↔ t = SubscriptionType.silver := by
  cases t <;> simp [SubscriptionType.value]

lemma value_eq_gold_iff {t : SubscriptionType} :
    (t.value = "gold") ↔ t = SubscriptionType.gold := by
  cases t <;> simp [SubscriptionType.value]

lemma init_ok {uid sd edS : String} {t : SubscriptionType} {s : Subscription}
    (h : Subscription.init uid (.enum t) sd (some edS) = .ok s) :
    ∃ ds de, parseDate sd = some ds ∧ parseDate edS = some de ∧
      1000 ≤ ds.year ∧ 1000 ≤ de.year ∧ dateLtB de ds = false ∧
      s = { user_id := uid, subscription_type := t,
            start_date := canonicalDate ds, end_date := canonicalDate de,
            remaining_credits := if t = SubscriptionType.silver then 3 else 0,
            apply_gold_drink_benefits := if t = SubscriptionType.gold then 1 else 0 } := by
  rcases hps : parseDate sd with _ | ds
  · unfold Subscription.init at h
    simp only [hps] at h
    exact Except.noConfusion h
  rcases hpe : parseDate edS with _ | de
  · unfold Subscription.init at h
    simp only [hps, hpe] at h
    exact Except.noConfusion h
  have hvds := parseDate_valid hps
  have hvde := parseDate_valid hpe
  by_cases hys : 1000 ≤ ds.year
  · by_cases hyd : 1000 ≤ de.year
    · unfold Subscription.init at h
      simp only [hps, hpe, parseFmtYMD_canonical hvds, parseFmtYMD_canonical hvde,
        if_pos hys, if_pos hyd] at h
      split at h
      · exact Except.noConfusion h
      · rename_i hcond
        cases h
        refine ⟨ds, de, rfl, rfl, hys, hyd, ?_, rfl⟩
        rcases hdl : dateLtB de ds
        · rfl
        · exact absurd hdl hcond
    · unfold Subscription.init at h
      simp only [hps, hpe, parseFmtYMD_canonical hvds, parseFmtYMD_canonical hvde,
        if_pos hys, if_neg hyd] at h
      exact Except.noConfusion h
  · by_cases hyd : 1000 ≤ de.year
    · unfold Subscription.init at h
      simp only [hps, hpe, parseFmtYMD_canonical hvds, parseFmtYMD_canonical hvde,
        if_neg hys, if_pos hyd] at h
      exact Except.noConfusion h
    · unfold Subscription.init at h
      simp only [hps, hpe, parseFmtYMD_canonical hvds, parseFmtYMD_canonical hvde,
        if_neg hys, if_neg hyd] at h
      exact Except.noConfusion h

lemma init_fields {uid sd edS : String} {t : SubscriptionType} {s : Subscription}
    (h : Subscription.init uid (.enum t) sd (some edS) = .ok s) :
    SubWF s ∧ s.user_id = uid ∧ s.subscription_type = t ∧
      s.remaining_credits = (if t = SubscriptionType.silver then 3 else 0) ∧
      s.apply_gold_drink_benefits = (if t = SubscriptionType.gold then 1 else 0) := by
  obtain ⟨ds, de, hps, hpe, hys, hyd, hlt, rfl⟩ := init_ok h
  have hvds := parseDate_valid hps
  have hvde := parseDate_valid hpe
  refine ⟨⟨ds, de, ?_, ?_, rfl, rfl, ?_, ?_, hlt⟩, rfl, rfl, rfl, rfl⟩
  · exact parseDate_canonical hvds hys
  · exact parseDate_canonical hvde hyd
  · rw [parseFmtYMD_canonical hvds, if_pos hys]
  · rw [parseFmtYMD_canonical hvde, if_pos hyd]

lemma SubWF_set_credits {s : Subscription} (n : Int) (h : SubWF s) :
    SubWF { s with remaining_credits := n } := h

lemma SubWF_set_flag {s : Subscription} (n : Int) (h : SubWF s) :
    SubWF { s with apply_gold_drink_benefits := n } := h

lemma from_dict_ok {r : SubRecord} {sub : Subscription}
    (h : Subscription.from_dict r = .ok sub) :
    SubWF sub ∧ sub.user_id = r.user_id ∧
      sub.subscription_type.value = r.subscription_type ∧
      sub.remaining_credits = recCredits r ∧
      sub.apply_gold_drink_benefits
        = (if sub.subscription_type = SubscriptionType.gold then 1 else 0) := by
  unfold Subscription.from_dict at h
  rcases hv : SubscriptionType.fromValue r.subscription_type with _ | t
  · simp only [hv] at h
    exact Except.noConfusion h
  simp only [hv] at h
  rcases hi : Subscription.init r.user_id (.enum t) r.start_date (some r.end_date)
    with e | s0
  · simp only [hi] at h
    exact Except.noConfusion h
  simp only [hi] at h
  cases h
  obtain ⟨hwf, hu, ht, hc, hf⟩ := init_fields hi
  have hval : r.subscription_type = t.value := fromValue_eq_some hv
  refine ⟨SubWF_set_credits _ hwf, hu, ?_, ?_, ?_⟩
  · simpa [ht] using hval.symm
  · unfold recCredits
    rw [hval, hc]
    have : (t.value = "silver") = (t = SubscriptionType.silver) := by
      simp [value_eq_silver_iff]
    simp [this]
  · simpa [ht] using hf

lemma from_dict_to_dict {s : Subscription} (hwf : SubWF s)
    (hflag : s.apply_gold_drink_benefits
      = if s.subscription_type = SubscriptionType.gold then 1 else 0) :
    Subscription.from_dict s.to_dict = .ok s := by
  obtain ⟨ds, de, hps, hpe, hcs, hce, hfys, hfye, hlt⟩ := hwf
  obtain ⟨su, st, ssd, sed, sc, sf⟩ := s
  dsimp only at hps hpe hcs hce hfys hfye hflag
  unfold Subscription.from_dict Subscription.to_dict Subscription.init
  simp only [fromValue_value, hps, hpe, hcs, hce, hfys, hfye, hlt,
    Bool.false_eq_true, if_false, Option.getD_some, hflag]

lemma from_dict_roundtrip {r : SubRecord} {sub : Subscription}
    (h : Subscription.from_dict r = .ok sub) :
    Subscription.from_dict sub.to_dict = .ok sub := by
  obtain ⟨hwf, _, _, _, hflag⟩ := from_dict_ok h
  exact from_dict_to_dict hwf hflag

lemma to_dict_set_flag (s : Subscription) (n : Int) :
    Subscription.to_dict { s with apply_gold_drink_benefits := n } = s.to_dict := rfl

lemma findRecord_putRecord (store : Store) (k uid : String) (v : SubRecord) :
    findRecord (putRecord store k v) uid
      = if k = uid then some v else findRecord store uid := by
  induction store with
  | nil => simp [putRecord, findRecord]
  | cons hd tl ih =>
    obtain ⟨k2, v2⟩ := hd
    by_cases h2 : k2 = k
    · subst h2
      simp only [putRecord, if_pos rfl, findRecord]
      split_ifs <;> simp_all [findRecord]
    · simp only [putRecord, if_neg h2, findRecord, ih]
      split_ifs <;> simp_all [findRecord]

lemma get_user_subscription_eq {today : Date} {store : Store} {uid : String}
    {r : SubRecord} {sub : Subscription}
    (hf : findRecord store uid = some r) (hd : Subscription.from_dict r = .ok sub) :
    get_user_subscription today store uid
      = if sub.is_active today then .ok (some sub) else .ok none := by
  unfold get_user_subscription load_user_subscriptions
  simp only [hf, hd]

lemma get_user_subscription_nofind {today : Date} {store : Store} {uid : String}
    (hf : findRecord store uid = none) :
    get_user_subscription today store uid = .ok none := by
  unfold get_user_subscription load_user_subscriptions
  simp only [hf]

lemma get_user_subscription_some_inv {today : Date} {store : Store} {uid : String}
    {sub : Subscription}
    (h : get_user_subscription today store uid = .ok (some sub)) :
    ∃ r, findRecord store uid = some r ∧ Subscription.from_dict r = .ok sub ∧
      sub.is_active today = true := by
  unfold get_user_subscription load_user_subscriptions at h
  rcases hf : findRecord store uid with _ | r <;> simp only [hf] at h
  · cases h
  rcases hd : Subscription.from_dict r with e | s0 <;> simp only [hd] at h
  · exact Except.noConfusion h
  split at h
  · rename_i hact
    simp only [Except.ok.injEq, Option.some.injEq] at h
    subst h
    refine ⟨r, ?_, ?_, ?_⟩
    all_goals first
      | rfl
      | exact hf
      | exact hd
      | exact hact
  · cases h

lemma is_active_silver {sub : Subscription} (today : Date)
    (hs : sub.subscription_type = SubscriptionType.silver) :
    sub.is_active today = decide (0 < sub.remaining_credits) := by
  unfold Subscription.is_active
  rw [hs]
  simp

lemma is_active_bronze {sub : Subscription} (today : Date)
    (hs : sub.subscription_type = SubscriptionType.bronze) :
    sub.is_active today = false := by
  unfold Subscription.is_active
  rw [hs]
  simp

lemma apply_of_get_none {today : Date} {store : Store} {uid : String}
    (balance amount : ℚ)
    (h : get_user_subscription today store uid = .ok none) :
    apply_subscription_benefits today store balance uid amount
      = (.ok amount, balance, store) := by
  unfold apply_subscription_benefits
  simp only [h]

lemma apply_silver_active (today : Date) {store : Store} {uid : String}
    {r : SubRecord} {sub : Subscription} (balance amount : ℚ)
    (hf : findRecord store uid = some r) (hd : Subscription.from_dict r = .ok sub)
    (hs : sub.subscription_type = SubscriptionType.silver)
    (hc : 0 < sub.remaining_credits) :
    apply_subscription_benefits today store balance uid amount
      = if amount * (0.2 : ℚ) ≤ 0 then (.error .invalidAmount, balance, store)
        else (.ok amount, balance + amount * (0.2 : ℚ),
          save_user_subscription store
            { sub with remaining_credits := sub.remaining_credits - 1 }) := by
  have hact : sub.is_active today = true := by
    rw [is_active_silver today hs]
    simpa using hc
  have hc2 : ¬ (sub.remaining_credits ≤ 0) := by omega
  unfold apply_subscription_benefits
  simp only [get_user_subscription_eq hf hd, hact, if_true, hs, hc2, if_false,
    reduceIte]

lemma apply_gold_active {today : Date} {store : Store} {uid : String}
    {r : SubRecord} {sub : Subscription} (balance amount : ℚ)
    (hf : findRecord store uid = some r) (hd : Subscription.from_dict r = .ok sub)
    (hg : sub.subscription_type = SubscriptionType.gold)
    (hact : sub.is_active today = true) :
    apply_subscription_benefits today store balance uid amount
      = (.ok (amount - amount * (0.5 : ℚ)), balance, store) := by
  unfold apply_subscription_benefits
  simp only [get_user_subscription_eq hf hd, hact, if_true, hg]
  rw [if_neg (by decide : ¬ (SubscriptionType.gold = SubscriptionType.silver))]

lemma drink_of_get_none {today : Date} {store : Store} {uid : String}
    (h : get_user_subscription today store uid = .ok none) :
    remaining_gold_drink_benefits today store uid = (.ok false, store) := by
  unfold remaining_gold_drink_benefits
  simp only [h]

lemma drink_gold_active {today : Date} {store : Store} {uid : String}
    {r : SubRecord} {sub : Subscription}
    (hf : findRecord store uid = some r) (hd : Subscription.from_dict r = .ok sub)
    (hg : sub.subscription_type = SubscriptionType.gold)
    (hact : sub.is_active today = true) :
    remaining_gold_drink_benefits today store uid
      = (.ok true, save_user_subscription store
          { sub with apply_gold_drink_benefits := sub.apply_gold_drink_benefits - 1 }) := by
  have hflag : sub.apply_gold_drink_benefits = 1 := by
    have := (from_dict_ok hd).2.2.2.2
    rw [hg] at this
    simpa using this
  unfold remaining_gold_drink_benefits
  simp only [get_user_subscription_eq hf hd, hact, if_true]
  rw [if_neg (show ¬ (sub.subscription_type ≠ SubscriptionType.gold) by simp [hg]),
    if_neg (show ¬ (sub.apply_gold_drink_benefits ≤ 0) by omega)]

lemma drink_not_gold {today : Date} {store : Store} {uid : String}
    {r : SubRecord} {sub : Subscription}
    (hf : findRecord store uid = some r) (hd : Subscription.from_dict r = .ok sub)
    (hg : sub.subscription_type ≠ SubscriptionType.gold)
    (hact : sub.is_active today = true) :
    remaining_gold_drink_benefits today store uid = (.ok false, store) := by
  unfold remaining_gold_drink_benefits
  simp only [get_user_subscription_eq hf hd, hact, if_true]
  rw [if_pos hg]

lemma save_eq_put (store : Store) (s : Subscription) :
    save_user_subscription store s = putRecord store s.user_id s.to_dict := rfl

lemma recCredits_to_dict (s : Subscription) :
    recCredits s.to_dict = s.remaining_credits := rfl

lemma runOp_effect (today : Date) (store : Store) (op : EngineOp) :
    runOp today store op = store ∨
    ∃ uid r sub, findRecord store uid = some r ∧
      Subscription.from_dict r = .ok sub ∧
      ((runOp today store op
          = save_user_subscription store
              { sub with remaining_credits := sub.remaining_credits - 1 } ∧
        0 < sub.remaining_credits) ∨
       runOp today store op
          = save_user_subscription store
              { sub with apply_gold_drink_benefits := sub.apply_gold_drink_benefits - 1 }) := by
  cases op with
  | createOp uid tier =>
    left
    cases tier <;> rfl
  | applyOp uid bal amt =>
    rcases hg : get_user_subscription today store uid with e | osub
    · left
      show (apply_subscription_benefits today store bal uid amt).2.2 = store
      unfold apply_subscription_benefits
      rw [hg]
    rcases osub with _ | sub
    · left
      show (apply_subscription_benefits today store bal uid amt).2.2 = store
      unfold apply_subscription_benefits
      rw [hg]
    obtain ⟨r, hf, hd, hact⟩ := get_user_subscription_some_inv hg
    by_cases hsilver : sub.subscription_type = SubscriptionType.silver
    · by_cases hc : sub.remaining_credits ≤ 0
      · left
        show (apply_subscription_benefits today store bal uid amt).2.2 = store
        unfold apply_subscription_benefits
        rw [hg]
        simp [hsilver, hc]
      · have happ := apply_silver_active today bal amt hf hd hsilver
          (by omega)
        by_cases hcb : amt * (0.2 : ℚ) ≤ 0
        · left
          show (apply_subscription_benefits today store bal uid amt).2.2 = store
          rw [happ, if_pos hcb]
        · right
          refine ⟨uid, r, sub, hf, hd, Or.inl ⟨?_, by omega⟩⟩
          show (apply_subscription_benefits today store bal uid amt).2.2 = _
          rw [happ, if_neg hcb]
    · by_cases hgold : sub.subscription_type = SubscriptionType.gold
      · left
        show (apply_subscription_benefits today store bal uid amt).2.2 = store
        rw [apply_gold_active bal amt hf hd hgold hact]
      · left
        show (apply_subscription_benefits today store bal uid amt).2.2 = store
        unfold apply_subscription_benefits
        rw [hg]
        simp only [if_neg hsilver, if_neg hgold]
  | drinkOp uid =>
    rcases hg : get_user_subscription today store uid with e | osub
    · left
      show (remaining_gold_drink_benefits today store uid).2 = store
      unfold remaining_gold_drink_benefits
      rw [hg]
    rcases osub with _ | sub
    · left
      show (remaining_gold_drink_benefits today store uid).2 = store
      unfold remaining_gold_drink_benefits
      rw [hg]
    obtain ⟨r, hf, hd, hact⟩ := get_user_subscription_some_inv hg
    by_cases hgold : sub.subscription_type = SubscriptionType.gold
    · right
      refine ⟨uid, r, sub, hf, hd, Or.inr ?_⟩
      show (remaining_gold_drink_benefits today store uid).2 = _
      rw [drink_gold_active hf hd hgold hact]
    · left
      show (remaining_gold_drink_benefits today store uid).2 = store
      rw [drink_not_gold hf hd hgold hact]

lemma StoreCoherent_put {store : Store} {k : String} {rec : SubRecord}
    (hco : StoreCoherent store) (hk : rec.user_id = k) :
    StoreCoherent (putRecord store k rec) := by
  intro uid r hfind
  rw [findRecord_putRecord] at hfind
  split at hfind
  · rename_i hku
    cases hfind
    rw [hk]
    exact hku
  · exact hco uid r hfind

lemma StoreOK_put {store : Store} {k : String} {rec : SubRecord}
    (hok : StoreOK store) (hr : 0 ≤ recCredits rec) :
    StoreOK (putRecord store k rec) := by
  intro uid r hfind
  rw [findRecord_putRecord] at hfind
  split at hfind
  · cases hfind
    exact hr
  · exact hok uid r hfind

lemma creditsAt_put_mono {store : Store} {k : String} {rec : SubRecord}
    (hle : ∀ rold, findRecord store k = some rold → recCredits rec ≤ recCredits rold)
    (uid : String) :
    ∀ y, creditsAt store uid = some y →
      ∃ x, creditsAt (putRecord store k rec) uid = some x ∧ x ≤ y := by
  intro y hy
  unfold creditsAt at hy ⊢
  rw [findRecord_putRecord]
  by_cases hk : k = uid
  · subst hk
    rcases hfind : findRecord store k with _ | rold
    · rw [hfind] at hy
      cases hy
    · rw [hfind] at hy
      simp only [Option.map] at hy
      cases hy
      exact ⟨recCredits rec, by rw [if_pos rfl]; rfl, hle rold hfind⟩
  · rw [if_neg hk]
    exact ⟨y, hy, le_refl y⟩

lemma invariants_runOp (today : Date) (store : Store) (op : EngineOp)
    (hco : StoreCoherent store) (hok : StoreOK store) :
    StoreCoherent (runOp today store op) ∧ StoreOK (runOp today store op) ∧
    ∀ uid y, creditsAt store uid = some y →
      ∃ x, creditsAt (runOp today store op) uid = some x ∧ x ≤ y := by
  rcases runOp_effect today store op with heq | ⟨uid0, r, sub, hf, hd, hcase⟩
  · rw [heq]
    exact ⟨hco, hok, fun uid y hy => ⟨y, hy, le_refl y⟩⟩
  obtain ⟨hwf, huid, hval, hcred, hflag⟩ := from_dict_ok hd
  have hk : r.user_id = uid0 := hco uid0 r hf
  have hkey : sub.user_id = uid0 := by rw [huid, hk]
  have hrfind : findRecord store sub.user_id = some r := by rw [hkey]; exact hf
  have h0r : 0 ≤ recCredits r := hok uid0 r hf
  rcases hcase with ⟨heq, hpos⟩ | heq
  · rw [heq, save_eq_put]
    have hle : ∀ rold, findRecord store sub.user_id = some rold →
        recCredits ({ sub with remaining_credits := sub.remaining_credits - 1 }).to_dict
          ≤ recCredits rold := by
      intro rold hro
      rw [hrfind] at hro
      cases hro
      rw [recCredits_to_dict]
      dsimp only
      omega
    refine ⟨StoreCoherent_put hco rfl, StoreOK_put hok ?_, fun uid => creditsAt_put_mono hle uid⟩
    rw [recCredits_to_dict]
    dsimp only
    omega
  · rw [heq, save_eq_put]
    have hle : ∀ rold, findRecord store sub.user_id = some rold →
        recCredits ({ sub with
          apply_gold_drink_benefits := sub.apply_gold_drink_benefits - 1 }).to_dict
          ≤ recCredits rold := by
      intro rold hro
      rw [hrfind] at hro
      cases hro
      rw [recCredits_to_dict]
      dsimp only
      omega
    refine ⟨StoreCoherent_put hco rfl, StoreOK_put hok ?_, fun uid => creditsAt_put_mono hle uid⟩
    rw [recCredits_to_dict]
    dsimp only
    omega

lemma invariants_runOps (today : Date) (ops : List EngineOp) :
    ∀ store, StoreCoherent store → StoreOK store →
      StoreCoherent (runOps today store ops) ∧ StoreOK (runOps today store ops) ∧
      ∀ uid y, creditsAt store uid = some y →
        ∃ x, creditsAt (runOps today store ops) uid = some x ∧ x ≤ y := by
  induction ops with
  | nil =>
    intro store hco hok
    exact ⟨hco, hok, fun uid y hy => ⟨y, hy, le_refl y⟩⟩
  | cons op rest ih =>
    intro store hco hok
    obtain ⟨hco1, hok1, hmono1⟩ := invariants_runOp today store op hco hok
    obtain ⟨hco2, hok2, hmono2⟩ := ih (runOp today store op) hco1 hok1
    have hstep : runOps today store (op :: rest) = runOps today (runOp today store op) rest := rfl
    rw [hstep]
    refine ⟨hco2, hok2, fun uid y hy => ?_⟩
    obtain ⟨x1, hx1, hle1⟩ := hmono1 uid y hy
    obtain ⟨x2, hx2, hle2⟩ := hmono2 uid x1 hx1
    exact ⟨x2, hx2, le_trans hle2 hle1⟩

/-- C1: for every user with an active SILVER subscription with
`remaining_credits > 0` and every positive amount,
`apply_subscription_benefits` returns the original amount, deposits exactly
`amount * 0.20` into the wallet, decrements `remaining_credits` by exactly 1,
and persists the updated subscription. -/
theorem claim_C1 (today : Date) (store : Store) (balance : ℚ) (uid : String)
    (amount : ℚ) (r : SubRecord) (sub : Subscription)
    (hf : findRecord store uid = some r)
    (hd : Subscription.from_dict r = .ok sub)
    (hs : sub.subscription_type = SubscriptionType.silver)
    (hc : 0 < sub.remaining_credits) (ha : 0 < amount) :
    apply_subscription_benefits today store balance uid amount
      = (.ok amount, balance + amount * (0.2 : ℚ),
         save_user_subscription store
           { sub with remaining_credits := sub.remaining_credits - 1 }) := by
  rw [apply_silver_active today balance amount hf hd hs hc,
    if_neg (not_le.mpr (mul_pos ha (by norm_num)))]

/-- C1 witness: under an active silver subscription with 3 credits,
applying to `100.00` returns `100.00`, raises the wallet by exactly `20.00`,
and persists the record with 2 credits. -/
theorem claim_C1_witness :
    apply_subscription_benefits ⟨2024, 3, 10⟩
      [("u2", { user_id := "u2", subscription_type := "silver",
                start_date := "2024-03-01", end_date := "2024-03-31",
                remaining_credits := some 3 })] 0 "u2" 100
      = (.ok 100, 20,
         [("u2", { user_id := "u2", subscription_type := "silver",
                   start_date := "2024-03-01", end_date := "2024-03-31",
                   remaining_credits := some 2 })]) := by
  have h := claim_C1 ⟨2024, 3, 10⟩
    [("u2", { user_id := "u2", subscription_type := "silver",
              start_date := "2024-03-01", end_date := "2024-03-31",
              remaining_credits := some 3 })] 0 "u2" 100
    { user_id := "u2", subscription_type := "silver",
      start_date := "2024-03-01", end_date := "2024-03-31",
      remaining_credits := some 3 }
    { user_id := "u2", subscription_type := SubscriptionType.silver,
      start_date := "2024-03-01", end_date := "2024-03-31",
      remaining_credits := 3, apply_gold_drink_benefits := 0 }
    (by decide) (by decide) (by decide) (by decide) (by norm_num)
  rw [h, show (0 : ℚ) + 100 * 0.2 = 20 from by norm_num]
  rfl

/-- C2: for every user with an active GOLD subscription and every amount,
`apply_subscription_benefits` returns `amount - amount * 0.50` exactly,
regardless of the drink-benefit state, with no wallet mutation and no change
to the persisted record. -/
theorem claim_C2 (today : Date) (store : Store) (balance : ℚ) (uid : String)
    (amount : ℚ) (r : SubRecord) (sub : Subscription)
    (hf : findRecord store uid = some r)
    (hd : Subscription.from_dict r = .ok sub)
    (hg : sub.subscription_type = SubscriptionType.gold)
    (hact : sub.is_active today = true) :
    apply_subscription_benefits today store balance uid amount
      = (.ok (amount - amount * (0.5 : ℚ)), balance, store) :=
  apply_gold_active balance amount hf hd hg hact

/-- C2 witness: under an active gold subscription, applying to `100.00`
yields exactly `50.00` with the wallet and the store untouched. -/
theorem claim_C2_witness :
    apply_subscription_benefits ⟨2024, 3, 10⟩
      [("u1", { user_id := "u1", subscription_type := "gold",
                start_date := "2024-03-01", end_date := "2024-03-31",
                remaining_credits := some 0 })] 0 "u1" 100
      = (.ok 50, 0,
         [("u1", { user_id := "u1", subscription_type := "gold",
                   start_date := "2024-03-01", end_date := "2024-03-31",
                   remaining_credits := some 0 })]) := by
  have h := claim_C2 ⟨2024, 3, 10⟩
    [("u1", { user_id := "u1", subscription_type := "gold",
              start_date := "2024-03-01", end_date := "2024-03-31",
              remaining_credits := some 0 })] 0 "u1" 100
    { user_id := "u1", subscription_type := "gold",
      start_date := "2024-03-01", end_date := "2024-03-31",
      remaining_credits := some 0 }
    { user_id := "u1", subscription_type := SubscriptionType.gold,
      start_date := "2024-03-01", end_date := "2024-03-31",
      remaining_credits := 0, apply_gold_drink_benefits := 1 }
    (by decide) (by decide) (by decide) (by decide)
  rw [h, show (100 : ℚ) - 100 * 0.5 = 50 from by norm_num]

/-- C3 counterexample: `remaining_gold_drink_benefits` does NOT return true
exactly once per subscription creation: on a persisted active gold record,
two consecutive calls (with no intervening creation) both return true,
because the drink flag is not serialized and reloads as 1. -/
theorem claim_C3_counterexample :
    (remaining_gold_drink_benefits ⟨2024, 3, 10⟩
        [("u1", { user_id := "u1", subscription_type := "gold",
                  start_date := "2024-03-01", end_date := "2024-03-31",
                  remaining_credits := some 0 })] "u1").1 = .ok true ∧
    (remaining_gold_drink_benefits ⟨2024, 3, 10⟩
        (remaining_gold_drink_benefits ⟨2024, 3, 10⟩
          [("u1", { user_id := "u1", subscription_type := "gold",
                    start_date := "2024-03-01", end_date := "2024-03-31",
                    remaining_credits := some 0 })] "u1").2 "u1").1 = .ok true := by
  decide

/-- C3 amended: `remaining_gold_drink_benefits` returns false when the active
subscription is absent or its tier is not GOLD; on an active GOLD record it
decrements the in-memory flag to 0, persists, and returns true — but because
the flag is not part of the serialized record, every load reconstructs it as
1, so the call returns true on EVERY invocation while the subscription stays
active, not exactly once per creation. -/
theorem claim_C3_amended (today : Date) (store : Store) (uid : String)
    (r : SubRecord) (sub : Subscription)
    (hf : findRecord store uid = some r)
    (hd : Subscription.from_dict r = .ok sub)
    (hu : sub.user_id = uid)
    (hg : sub.subscription_type = SubscriptionType.gold)
    (hact : sub.is_active today = true) :
    (remaining_gold_drink_benefits today store uid).1 = .ok true ∧
    (remaining_gold_drink_benefits today
        (remaining_gold_drink_benefits today store uid).2 uid).1 = .ok true ∧
    (∀ store2, get_user_subscription today store2 uid = .ok none →
      remaining_gold_drink_benefits today store2 uid = (.ok false, store2)) ∧
    (∀ store2 r2 sub2, findRecord store2 uid = some r2 →
      Subscription.from_dict r2 = .ok sub2 →
      sub2.subscription_type ≠ SubscriptionType.gold →
      sub2.is_active today = true →
      remaining_gold_drink_benefits today store2 uid = (.ok false, store2)) := by
  have hfirst := drink_gold_active hf hd hg hact
  have hstore2 : (remaining_gold_drink_benefits today store uid).2
      = putRecord store sub.user_id sub.to_dict := by
    rw [hfirst, save_eq_put]
    rfl
  have hf2 : findRecord ((remaining_gold_drink_benefits today store uid).2) uid
      = some sub.to_dict := by
    rw [hstore2, findRecord_putRecord, hu, if_pos rfl]
  have hd2 : Subscription.from_dict sub.to_dict = .ok sub := from_dict_roundtrip hd
  refine ⟨by rw [hfirst], ?_, ?_, ?_⟩
  · rw [drink_gold_active hf2 hd2 hg hact]
  · intro store2 h
    exact drink_of_get_none h
  · intro store2 r2 sub2 hf3 hd3 hg3 hact3
    exact drink_not_gold hf3 hd3 hg3 hact3

/-- C3 witness: the amended behaviour at a concrete active gold store: two
consecutive calls both return true. -/
theorem claim_C3_witness :
    (remaining_gold_drink_benefits ⟨2024, 3, 20⟩
        [("u9", { user_id := "u9", subscription_type := "gold",
                  start_date := "2024-03-05", end_date := "2024-04-04",
                  remaining_credits := some 0 })] "u9").1 = .ok true ∧
    (remaining_gold_drink_benefits ⟨2024, 3, 20⟩
        (remaining_gold_drink_benefits ⟨2024, 3, 20⟩
          [("u9", { user_id := "u9", subscription_type := "gold",
                    start_date := "2024-03-05", end_date := "2024-04-04",
                    remaining_credits := some 0 })] "u9").2 "u9").1 = .ok true := by
  have h := claim_C3_amended ⟨2024, 3, 20⟩
    [("u9", { user_id := "u9", subscription_type := "gold",
              start_date := "2024-03-05", end_date := "2024-04-04",
              remaining_credits := some 0 })] "u9"
    { user_id := "u9", subscription_type := "gold",
      start_date := "2024-03-05", end_date := "2024-04-04",
      remaining_credits := some 0 }
    { user_id := "u9", subscription_type := SubscriptionType.gold,
      start_date := "2024-03-05", end_date := "2024-04-04",
      remaining_credits := 0, apply_gold_drink_benefits := 1 }
    (by decide) (by decide) (by decide) (by decide) (by decide)
  exact ⟨h.1, h.2.1⟩

/-- C4: `create_subscription` never succeeds for a valid tier: the
`isinstance` check passes and the call then evaluates
`datetime.datetime.now(datetime.timezone.utc)` on the class imported by
`from datetime import datetime`, raising `AttributeError` before any
subscription is constructed or persisted (and for non-GOLD tiers the
`end_date=None` argument would additionally make the date setter raise an
uncaught `TypeError`). This contradicts the claim that creation succeeds
for every tier. -/
theorem claim_C4 (store : Store) (uid : String) (t : SubscriptionType) :
    create_subscription store uid (.enum t) = (.error .attributeError, store) := by
  rfl

/-- C5: `is_active` of a GOLD subscription holds iff the check date lies in
the inclusive window `[start_date, end_date]` (false when `end_date` is
empty); of a SILVER subscription iff `remaining_credits > 0`, with no date
check; of a BRONZE subscription never. -/
theorem claim_C5 (s : Subscription) (today : Date) :
    (s.subscription_type = SubscriptionType.silver →
      s.is_active today = decide (0 < s.remaining_credits)) ∧
    (s.subscription_type = SubscriptionType.bronze →
      s.is_active today = false) ∧
    (s.subscription_type = SubscriptionType.gold → s.end_date = "" →
      s.is_active today = false) ∧
    (∀ st en, s.subscription_type = SubscriptionType.gold →
      parseFmtYMD s.start_date.data = some st →
      parseFmtYMD s.end_date.data = some en →
      s.end_date ≠ "" →
      s.is_active today = (dateLeB st today && dateLeB today en)) := by
  refine ⟨fun hs => is_active_silver today hs, fun hb => is_active_bronze today hb,
    fun hg he => ?_, fun st en hg hps hpe hne => ?_⟩
  · unfold Subscription.is_active
    rw [hg]
    simp [he]
  · unfold Subscription.is_active
    rw [hg]
    simp [hps, hpe, hne]

/-- C5 witness: a gold subscription with `end_date` equal to the check date
is active (inclusive boundary); one day past `end_date` it is inactive. -/
theorem claim_C5_witness :
    ({ user_id := "u1", subscription_type := SubscriptionType.gold,
       start_date := "2024-03-01", end_date := "2024-03-15",
       remaining_credits := 0, apply_gold_drink_benefits := 1 } :
        Subscription).is_active ⟨2024, 3, 15⟩ = true ∧
    ({ user_id := "u1", subscription_type := SubscriptionType.gold,
       start_date := "2024-03-01", end_date := "2024-03-15",
       remaining_credits := 0, apply_gold_drink_benefits := 1 } :
        Subscription).is_active ⟨2024, 3, 16⟩ = false := by
  have h1 := (claim_C5
    { user_id := "u1", subscription_type := SubscriptionType.gold,
      start_date := "2024-03-01", end_date := "2024-03-15",
      remaining_credits := 0, apply_gold_drink_benefits := 1 }
    ⟨2024, 3, 15⟩).2.2.2 ⟨2024, 3, 1⟩ ⟨2024, 3, 15⟩
    rfl (by decide) (by decide) (by decide)
  have h2 := (claim_C5
    { user_id := "u1", subscription_type := SubscriptionType.gold,
      start_date := "2024-03-01", end_date := "2024-03-15",
      remaining_credits := 0, apply_gold_drink_benefits := 1 }
    ⟨2024, 3, 16⟩).2.2.2 ⟨2024, 3, 1⟩ ⟨2024, 3, 15⟩
    rfl (by decide) (by decide) (by decide)
  rw [h1, h2]
  exact ⟨by decide, by decide⟩

/-- C6: with no active subscription — no record, an inactive record (which
includes every BRONZE record and every SILVER record with
`remaining_credits <= 0`) — `apply_subscription_benefits` returns the amount
unchanged and leaves the wallet balance and the store untouched. -/
theorem claim_C6 (today : Date) (store : Store) (balance : ℚ) (uid : String)
    (amount : ℚ) :
    (get_user_subscription today store uid = .ok none →
      apply_subscription_benefits today store balance uid amount
        = (.ok amount, balance, store)) ∧
    (findRecord store uid = none →
      get_user_subscription today store uid = .ok none) ∧
    (∀ r sub, findRecord store uid = some r →
      Subscription.from_dict r = .ok sub →
      (sub.subscription_type = SubscriptionType.bronze ∨
        (sub.subscription_type = SubscriptionType.silver ∧
          sub.remaining_credits ≤ 0) ∨
        sub.is_active today = false) →
      get_user_subscription today store uid = .ok none) := by
  refine ⟨fun h => apply_of_get_none balance amount h,
    fun h => get_user_subscription_nofind h, fun r sub hf hd hcase => ?_⟩
  have hinact : sub.is_active today = false := by
    rcases hcase with hb | ⟨hs, hc⟩ | hi
    · exact is_active_bronze today hb
    · rw [is_active_silver today hs]
      simpa using hc
    · exact hi
  rw [get_user_subscription_eq hf hd, hinact]
  simp

/-- C6 witness: a silver record whose credits have been exhausted (as after
three applications starting from 3 credits) leaves the amount, the wallet
balance and the store unchanged on a further application. -/
theorem claim_C6_witness :
    apply_subscription_benefits ⟨2024, 3, 10⟩
      [("u2", { user_id := "u2", subscription_type := "silver",
                start_date := "2024-03-01", end_date := "2024-03-31",
                remaining_credits := some 0 })] 60 "u2" 100
      = (.ok 100, 60,
         [("u2", { user_id := "u2", subscription_type := "silver",
                   start_date := "2024-03-01", end_date := "2024-03-31",
                   remaining_credits := some 0 })]) := by
  have h := claim_C6 ⟨2024, 3, 10⟩
    [("u2", { user_id := "u2", subscription_type := "silver",
              start_date := "2024-03-01", end_date := "2024-03-31",
              remaining_credits := some 0 })] 60 "u2" 100
  exact h.1 (h.2.2
    { user_id := "u2", subscription_type := "silver",
      start_date := "2024-03-01", end_date := "2024-03-31",
      remaining_credits := some 0 }
    { user_id := "u2", subscription_type := SubscriptionType.silver,
      start_date := "2024-03-01", end_date := "2024-03-31",
      remaining_credits := 0, apply_gold_drink_benefits := 0 }
    (by decide) (by decide) (Or.inr (Or.inl ⟨by decide, by decide⟩)))

/-- C7 counterexample: the drink flag is NOT monotonically non-increasing
across persistence round-trips: a consumed gold subscription (flag 0)
serializes and deserializes to flag 1, because `to_dict` omits the flag and
reconstruction resets it. -/
theorem claim_C7_counterexample :
    ({ user_id := "u1", subscription_type := SubscriptionType.gold,
       start_date := "2024-03-01", end_date := "2024-03-31",
       remaining_credits := 0, apply_gold_drink_benefits := 0 } :
        Subscription).apply_gold_drink_benefits = 0 ∧
    Except.map (fun s => s.apply_gold_drink_benefits)
      (Subscription.from_dict
        (Subscription.to_dict
          { user_id := "u1", subscription_type := SubscriptionType.gold,
            start_date := "2024-03-01", end_date := "2024-03-31",
            remaining_credits := 0, apply_gold_drink_benefits := 0 }))
      = .ok 1 := by
  decide

/-- C7 amended: over coherent stores (each record keyed by its own user id),
`remaining_credits` never goes negative under any sequence of engine
operations and is monotonically non-increasing at every key, and a silver
application with credits remaining and a positive amount decrements the
persisted counter by exactly 1; the drink flag, however, is not persisted at
all, so it resets to 1 on every load instead of being non-increasing across
save/load round-trips. -/
theorem claim_C7_amended (today : Date) (store : Store) (ops : List EngineOp)
    (hco : StoreCoherent store) (hok : StoreOK store) :
    StoreOK (runOps today store ops) ∧
    StoreCoherent (runOps today store ops) ∧
    (∀ uid y, creditsAt store uid = some y →
      ∃ x, creditsAt (runOps today store ops) uid = some x ∧ x ≤ y) ∧
    (∀ balance uid amount r sub, findRecord store uid = some r →
      Subscription.from_dict r = .ok sub →
      sub.subscription_type = SubscriptionType.silver →
      0 < sub.remaining_credits → 0 < amount →
      creditsAt ((apply_subscription_benefits today store balance uid amount).2.2)
        sub.user_id = some (sub.remaining_credits - 1)) := by
  obtain ⟨hco2, hok2, hmono⟩ := invariants_runOps today ops store hco hok
  refine ⟨hok2, hco2, hmono, fun balance uid amount r sub hf hd hs hc ha => ?_⟩
  rw [apply_silver_active today balance amount hf hd hs hc,
    if_neg (not_le.mpr (mul_pos ha (by norm_num)))]
  show creditsAt (save_user_subscription store
    { sub with remaining_credits := sub.remaining_credits - 1 }) sub.user_id = _
  rw [save_eq_put]
  unfold creditsAt
  rw [findRecord_putRecord]
  simp only [if_pos rfl, Option.map]
  rfl

/-- C7 witness: on a concrete coherent store with a 3-credit silver record,
one silver application keeps the observed credits at or below 3. -/
theorem claim_C7_witness :
    ∃ x, creditsAt (runOps ⟨2024, 3, 10⟩
      [("u2", { user_id := "u2", subscription_type := "silver",
                start_date := "2024-03-01", end_date := "2024-03-31",
                remaining_credits := some 3 })]
      [EngineOp.applyOp "u2" 0 100]) "u2" = some x ∧ x ≤ 3 := by
  have h := claim_C7_amended ⟨2024, 3, 10⟩
    [("u2", { user_id := "u2", subscription_type := "silver",
              start_date := "2024-03-01", end_date := "2024-03-31",
              remaining_credits := some 3 })]
    [EngineOp.applyOp "u2" 0 100]
    (by
      intro uid r hfind
      simp only [findRecord] at hfind
      split at hfind
      · rename_i heq
        cases hfind
        rw [← heq]
      · cases hfind)
    (by
      intro uid r hfind
      simp only [findRecord] at hfind
      split at hfind
      · cases hfind
        decide
      · cases hfind)
  exact h.2.2.1 "u2" 3 (by decide)

/-- C8 counterexample: construction does NOT accept an absent `end_date` for
a non-gold tier: the end-date setter calls `strptime(None, fmt)`, whose
`TypeError` escapes the `except ValueError` clause, so construction fails
with an error that is neither `InvalidSubscriptionType` nor `InvalidDate`. -/
theorem claim_C8_counterexample :
    Subscription.init "u1" (.enum SubscriptionType.silver) "2024-03-15" none
      = .error .typeError := by
  decide

/-- C8 amended: construction requires a present `end_date` for every tier
(an absent one raises an uncaught `TypeError`); with the argument present it
fails with `InvalidSubscriptionType` exactly when the tier is not an enum
member, with `InvalidDate` exactly when a date string matches none of the
three accepted formats, with an uncaught `ValueError` when either accepted
date has a year below 1000 (the unpadded `strftime` year then fails the
four-digit `"%Y-%m-%d"` re-parse of the end-before-start check), with
`InvalidDate` when the end date precedes the start date, and succeeds
otherwise — no other outcome is possible. -/
theorem claim_C8_amended (uid : String) (tier : TierInput) (sd : String)
    (ed : Option String) :
    (∀ txt, tier = .notEnum txt →
      Subscription.init uid tier sd ed = .error .invalidSubscriptionType) ∧
    (∀ t, tier = .enum t → parseDate sd = none →
      Subscription.init uid tier sd ed
        = .error (.invalidDate sd "Date format is not recognized.")) ∧
    (∀ t ds, tier = .enum t → parseDate sd = some ds → ed = none →
      Subscription.init uid tier sd ed = .error .typeError) ∧
    (∀ t ds edS, tier = .enum t → parseDate sd = some ds → ed = some edS →
      parseDate edS = none →
      Subscription.init uid tier sd ed
        = .error (.invalidDate edS "Date format is not recognized.")) ∧
    (∀ t ds edS de, tier = .enum t → parseDate sd = some ds → ed = some edS →
      parseDate edS = some de → (ds.year < 1000 ∨ de.year < 1000) →
      Subscription.init uid tier sd ed = .error .valueError) ∧
    (∀ t ds edS de, tier = .enum t → parseDate sd = some ds → ed = some edS →
      parseDate edS = some de → 1000 ≤ ds.year → 1000 ≤ de.year →
      dateLtB de ds = true →
      Subscription.init uid tier sd ed
        = .error (.invalidDate edS "end_date cannot be before start_date")) ∧
    (∀ t ds edS de, tier = .enum t → parseDate sd = some ds → ed = some edS →
      parseDate edS = some de → 1000 ≤ ds.year → 1000 ≤ de.year →
      dateLtB de ds = false →
      Subscription.init uid tier sd ed
        = .ok { user_id := uid, subscription_type := t,
                start_date := canonicalDate ds, end_date := canonicalDate de,
                remaining_credits := if t = SubscriptionType.silver then 3 else 0,
                apply_gold_drink_benefits :=
                  if t = SubscriptionType.gold then 1 else 0 }) := by
  refine ⟨?_, ?_, ?_, ?_, ?_, ?_, ?_⟩
  · rintro txt rfl
    rfl
  · rintro t rfl hsd
    unfold Subscription.init
    simp only [hsd]
  · rintro t ds rfl hsd rfl
    unfold Subscription.init
    simp only [hsd]
  · rintro t ds edS rfl hsd rfl hed
    unfold Subscription.init
    simp only [hsd, hed]
  · rintro t ds edS de rfl hsd rfl hed hybad
    have hvds := parseDate_valid hsd
    have hvde := parseDate_valid hed
    unfold Subscription.init
    by_cases hys : 1000 ≤ ds.year
    · by_cases hyd : 1000 ≤ de.year
      · rcases hybad with hb | hb <;> omega
      · simp only [hsd, hed, parseFmtYMD_canonical hvds,
          parseFmtYMD_canonical hvde, if_pos hys, if_neg hyd]
    · by_cases hyd : 1000 ≤ de.year
      · simp only [hsd, hed, parseFmtYMD_canonical hvds,
          parseFmtYMD_canonical hvde, if_neg hys, if_pos hyd]
      · simp only [hsd, hed, parseFmtYMD_canonical hvds,
          parseFmtYMD_canonical hvde, if_neg hys, if_neg hyd]
  · rintro t ds edS de rfl hsd rfl hed hys hyd hlt
    have hvds := parseDate_valid hsd
    have hvde := parseDate_valid hed
    unfold Subscription.init
    simp only [hsd, hed, parseFmtYMD_canonical hvds, parseFmtYMD_canonical hvde,
      if_pos hys, if_pos hyd, hlt, if_true]
  · rintro t ds edS de rfl hsd rfl hed hys hyd hlt
    have hvds := parseDate_valid hsd
    have hvde := parseDate_valid hed
    unfold Subscription.init
    simp only [hsd, hed, parseFmtYMD_canonical hvds, parseFmtYMD_canonical hvde,
      if_pos hys, if_pos hyd, hlt, Bool.false_eq_true, if_false]

/-- C8 witness: a gold construction whose end date precedes its start date
fails with `InvalidDate`, instantiating the amended characterization. -/
theorem claim_C8_witness :
    Subscription.init "u1" (.enum SubscriptionType.gold) "2024-03-15"
      (some "2024-03-14")
      = .error (.invalidDate "2024-03-14" "end_date cannot be before start_date") := by
  have h := (claim_C8_amended "u1" (.enum SubscriptionType.gold) "2024-03-15"
    (some "2024-03-14")).2.2.2.2.2.1 SubscriptionType.gold ⟨2024, 3, 15⟩
    "2024-03-14" ⟨2024, 3, 14⟩ rfl (by decide) rfl (by decide) (by decide)
    (by decide) (by decide)
  exact h

/-- C9: a validly constructed subscription round-trips through
`to_dict`/`from_dict` unchanged (in particular user id, tier, both dates and
`remaining_credits` agree); construction normalizes `"15/03/2024"` to
`"2024-03-15"`; and deserialization rejects an unrecognized tier value. -/
theorem claim_C9 :
    (∀ uid t sd edS s,
      Subscription.init uid (.enum t) sd (some edS) = .ok s →
      Subscription.from_dict s.to_dict = .ok s) ∧
    (Except.map (fun s => s.start_date)
      (Subscription.init "u1" (.enum SubscriptionType.silver) "15/03/2024"
        (some "15/04/2024")) = .ok "2024-03-15") ∧
    (Subscription.from_dict
      { user_id := "u1", subscription_type := "platinum",
        start_date := "2024-03-15", end_date := "2024-04-15",
        remaining_credits := some 3 } = .error .valueError) := by
  refine ⟨fun uid t sd edS s h => ?_, by decide, by decide⟩
  obtain ⟨hwf, _, _, _, hflag⟩ := init_fields h
  obtain ⟨_, _, ht, _, _⟩ := init_fields h
  exact from_dict_to_dict hwf (by rw [ht]; exact hflag)

/-- C9 witness: the round-trip at a concrete constructed silver
subscription. -/
theorem claim_C9_witness :
    Subscription.from_dict
      (Subscription.to_dict
        { user_id := "u2", subscription_type := SubscriptionType.silver,
          start_date := "2024-03-01", end_date := "2024-03-31",
          remaining_credits := 3, apply_gold_drink_benefits := 0 })
      = .ok { user_id := "u2", subscription_type := SubscriptionType.silver,
              start_date := "2024-03-01", end_date := "2024-03-31",
              remaining_credits := 3, apply_gold_drink_benefits := 0 } := by
  exact claim_C9.1 "u2" SubscriptionType.silver "2024-03-01" "2024-03-31"
    { user_id := "u2", subscription_type := SubscriptionType.silver,
      start_date := "2024-03-01", end_date := "2024-03-31",
      remaining_credits := 3, apply_gold_drink_benefits := 0 }
    (by decide)

/-- C10: under an active SILVER subscription with credits remaining, a
non-positive amount makes the wallet deposit of the non-positive cashback
raise `InvalidAmountError` before the credit decrement and the save, leaving
balance and store unchanged; the same amount under an absent/inactive
subscription or an active GOLD one completes without error. -/
theorem claim_C10 (today : Date) (store : Store) (balance : ℚ) (uid : String)
    (amount : ℚ) (r : SubRecord) (sub : Subscription)
    (hf : findRecord store uid = some r)
    (hd : Subscription.from_dict r = .ok sub)
    (hs : sub.subscription_type = SubscriptionType.silver)
    (hc : 0 < sub.remaining_credits) (ha : amount ≤ 0) :
    apply_subscription_benefits today store balance uid amount
      = (.error .invalidAmount, balance, store) ∧
    (∀ store2 balance2 uid2,
      get_user_subscription today store2 uid2 = .ok none →
      apply_subscription_benefits today store2 balance2 uid2 amount
        = (.ok amount, balance2, store2)) ∧
    (∀ store2 balance2 uid2 r2 sub2, findRecord store2 uid2 = some r2 →
      Subscription.from_dict r2 = .ok sub2 →
      sub2.subscription_type = SubscriptionType.gold →
      sub2.is_active today = true →
      apply_subscription_benefits today store2 balance2 uid2 amount
        = (.ok (amount - amount * (0.5 : ℚ)), balance2, store2)) := by
  refine ⟨?_, fun store2 balance2 uid2 h => apply_of_get_none balance2 amount h,
    fun store2 balance2 uid2 r2 sub2 hf2 hd2 hg2 hact2 =>
      apply_gold_active balance2 amount hf2 hd2 hg2 hact2⟩
  rw [apply_silver_active today balance amount hf hd hs hc,
    if_pos (by nlinarith : amount * (0.2 : ℚ) ≤ 0)]

/-- C10 witness: a zero amount under an active silver subscription raises
`InvalidAmountError` and leaves balance and store unchanged. -/
theorem claim_C10_witness :
    apply_subscription_benefits ⟨2024, 3, 10⟩
      [("u2", { user_id := "u2", subscription_type := "silver",
                start_date := "2024-03-01", end_date := "2024-03-31",
                remaining_credits := some 3 })] 7 "u2" 0
      = (.error .invalidAmount, 7,
         [("u2", { user_id := "u2", subscription_type := "silver",
                   start_date := "2024-03-01", end_date := "2024-03-31",
                   remaining_credits := some 3 })]) := by
  exact (claim_C10 ⟨2024, 3, 10⟩
    [("u2", { user_id := "u2", subscription_type := "silver",
              start_date := "2024-03-01", end_date := "2024-03-31",
              remaining_credits := some 3 })] 7 "u2" 0
    { user_id := "u2", subscription_type := "silver",
      start_date := "2024-03-01", end_date := "2024-03-31",
      remaining_credits := some 3 }
    { user_id := "u2", subscription_type := SubscriptionType.silver,
      start_date := "2024-03-01", end_date := "2024-03-31",
      remaining_credits := 3, apply_gold_drink_benefits := 0 }
    (by decide) (by decide) (by decide) (by decide) (by norm_num)).1

end CinemaTicket
